import Mathlib

/-!
Shallow embedding of the cycle-stepped MOS 6510 CPU emulator in
`src/src/cpu6510.ts` (class `cpu6510`), together with theorems settling the
frozen claims about it.

Modelling conventions:
* The external byte/word primitives from `@hulle107/libslm-binary` are wrapping
  fixed-width integers: `byte(x) = x mod 256`, `word(x) = x mod 65536`,
  `byte.size = 8`, `byte.get` is a bit test and `byte.set` writes one bit.
  They are modelled by `byteOf`, `wordOf`, `Nat.testBit` and `byteSetBit`.
* The micro-step queue in the source holds zero-argument closures.  Each
  closure that can ever be enqueued is one of the `T1..T5` locals of the 13
  addressing methods (plus the `___` no-op default); they are defunctionalised
  into the inductive `MicroStep`, each constructor carrying the `operation`
  captured at decode time.  `runMicroStep` interprets a constructor by the
  body of the corresponding closure, line for line.
* The memory collaborator (`MemoryLike`) is a pure read function
  `mem : Nat -> Nat`; nothing in the implemented code ever calls
  `memory.write`, so memory never changes.
* Operation handlers in the source are empty method bodies (stubs); they are
  interpreted as the identity, except `LDA` and `JAM`, which two claims
  exercise and which are modelled from the spec (see `LDA_spec`, `JAM_spec`).
-/

/-- `byte(x)` of the external binary library: wrap to 8 bits. -/
def byteOf (x : Nat) : Nat := x % 256

/-- `word(x)` of the external binary library: wrap to 16 bits. -/
def wordOf (x : Nat) : Nat := x % 65536

/-- `byte.set(x, i, v)` of the external binary library: set bit `i` of `x`
to the bit value `v` (a 0/1 number, as in the source's `bit` type). -/
def byteSetBit (x i v : Nat) : Nat :=
  if v = 0 then x &&& (255 ^^^ (1 <<< i)) else x ||| (1 <<< i)

/-- The ~78 distinct operation handlers named in the `operations` table of
`cpu6510.ts` (documented and illegal opcodes alike). -/
inductive Operation where
  | ADC | AND | ANE | ANS | ANR | ARR | ASL | ASR
  | BCC | BCS | BEQ | BIT | BMI | BNE | BPL | BRK | BVC | BVS
  | CLC | CLD | CLI | CLV | CMP | CPX | CPY
  | DCP | DEC | DEX | DEY | EOR
  | INC | INX | INY | ISB
  | JAM | JMP | JSR
  | LAX | LDA | LDX | LDY | LEA | LSR | LXA
  | NOP | ORA
  | PHA | PHP | PLA | PLP
  | RLA | ROL | ROR | RRA | RTI | RTS
  | SAX | SBC | SBX | SEC | SED | SEI | SHA | SHX | SHY | SLO | SRE
  | STA | STX | STY
  | TAS | TAX | TAY | TSX | TXA | TXS | TYA
  | USB
deriving DecidableEq

/-- The 12 addressing-mode decoders named in the `addressings` table. -/
inductive Addressing where
  | ACU | IMM | IMP | ABS | ABX | ABY | ZPG | ZPX | ZPY | IDX | IDY | REL
deriving DecidableEq

/-- Defunctionalised micro-step closures.  `noop` is the `___` default handler;
`jam` is the self-perpetuating halt step of the spec-modelled `JAM` handler.
The remaining constructors are the `T1..T5` closures of the addressing
methods, carrying the `operation` captured when the closure was created. -/
inductive MicroStep where
  | noop
  | jam
  | acuT1 (op : Operation)
  | immT1 (op : Operation)
  | impT1 (op : Operation)
  | absT1
  | absT2
  | absT3 (op : Operation)
  | abxT1
  | abxT2
  | abxT3 (op : Operation)
  | abxT4 (op : Operation)
  | abyT1
  | abyT2
  | abyT3 (op : Operation)
  | abyT4 (op : Operation)
  | zpgT1
  | zpgT2 (op : Operation)
  | zpxT1
  | zpxT2
  | zpxT3 (op : Operation)
  | zpyT1
  | zpyT2
  | zpyT3 (op : Operation)
  | idxT1
  | idxT2
  | idxT3
  | idxT4
  | idxT5 (op : Operation)
  | idyT1
  | idyT2
  | idyT3
  | idyT4 (op : Operation)
  | idyT5 (op : Operation)
  | relT1 (op : Operation)
deriving DecidableEq

/-- The mutable fields of class `cpu6510`: registers `PCL PCH PS SP AC XR YR`,
internal latches `I_I I_ADL I_ADH I_DB`, bus pins `IO_DB IO_ABL IO_ABH`, the
micro-step queue `sequences`, and the public `debug` flag. -/
structure CpuState where
  PCL : Nat
  PCH : Nat
  PS : Nat
  SP : Nat
  AC : Nat
  XR : Nat
  YR : Nat
  I_I : Nat
  I_ADL : Nat
  I_ADH : Nat
  I_DB : Nat
  IO_DB : Nat
  IO_ABL : Nat
  IO_ABH : Nat
  sequences : List MicroStep
  debug : Bool
deriving DecidableEq

/-- Getter `PC`: `word((PCH << 8) + PCL)`. -/
def getPC (s : CpuState) : Nat := wordOf (s.PCH * 256 + s.PCL)

/-- Getter `I_AD`: `word((I_ADH << 8) + I_ADL)`. -/
def getAD (s : CpuState) : Nat := wordOf (s.I_ADH * 256 + s.I_ADL)

/-- Getter `IO_AB`: `word((IO_ABH << 8) + IO_ABL)`. -/
def getAB (s : CpuState) : Nat := wordOf (s.IO_ABH * 256 + s.IO_ABL)

/-- Setter `programCounter`/`PC`: wrap to a word, split into low/high bytes. -/
def setPC (d : Nat) (s : CpuState) : CpuState :=
  { s with PCL := byteOf (wordOf d), PCH := byteOf (wordOf d / 256) }

/-- Setter `internalAddressData`/`I_AD`. -/
def setAD (d : Nat) (s : CpuState) : CpuState :=
  { s with I_ADL := byteOf (wordOf d), I_ADH := byteOf (wordOf d / 256) }

/-- Setter `addressBus`/`IO_AB`. -/
def setAB (d : Nat) (s : CpuState) : CpuState :=
  { s with IO_ABL := byteOf (wordOf d), IO_ABH := byteOf (wordOf d / 256) }

/-- Flag getter `interruptFlag`: bit 2 of the status register, as a 0/1 bit. -/
def interruptFlag (s : CpuState) : Nat := if Nat.testBit s.PS 2 then 1 else 0

/-- Flag getter `zeroFlag`: bit 1 of the status register. -/
def zeroFlag (s : CpuState) : Nat := if Nat.testBit s.PS 1 then 1 else 0

/-- Flag getter `negativeFlag`: bit 7 of the status register. -/
def negativeFlag (s : CpuState) : Nat := if Nat.testBit s.PS 7 then 1 else 0

/-- Flag getter `breakFlag`: bit 4 of the status register. -/
def breakFlag (s : CpuState) : Nat := if Nat.testBit s.PS 4 then 1 else 0

/-- Flag setter `breakFlag`: `PS = byte.set(PS, 4, value)`. -/
def setBreakFlag (v : Nat) (s : CpuState) : CpuState :=
  { s with PS := byteSetBit s.PS 4 v }

/-- Flag setter `zeroFlag`: `PS = byte.set(PS, 1, value)`. -/
def setZeroFlag (v : Nat) (s : CpuState) : CpuState :=
  { s with PS := byteSetBit s.PS 1 v }

/-- Flag setter `negativeFlag`: `PS = byte.set(PS, 7, value)`. -/
def setNegativeFlag (v : Nat) (s : CpuState) : CpuState :=
  { s with PS := byteSetBit s.PS 7 v }

/-- Flag setter `overflowFlag`: `PS = byte.set(PS, 6, value)`. -/
def setOverflowFlag (v : Nat) (s : CpuState) : CpuState :=
  { s with PS := byteSetBit s.PS 6 v }

/-- Method `fetch()`: `dataBus = memory.read(addressBus)` (the `dataBus`
setter wraps the value to a byte). -/
def fetch (mem : Nat → Nat) (s : CpuState) : CpuState :=
  { s with IO_DB := byteOf (mem (getAB s)) }

/-- Method `setInternalDataBus()`: `internalDataBus = dataBus`. -/
def setInternalDataBus (s : CpuState) : CpuState :=
  { s with I_DB := byteOf s.IO_DB }

/-- Method `addressingProgramCounter()`: `addressBus = programCounter`. -/
def addressingProgramCounter (s : CpuState) : CpuState := setAB (getPC s) s

/-- Method `incrementProgramCounter()`: `programCounter++`. -/
def incrementProgramCounter (s : CpuState) : CpuState := setPC (getPC s + 1) s

/-- Method `addressingInternalAddressData()`: `addressBus = internalAddressData`. -/
def addressingInternalAddressData (s : CpuState) : CpuState := setAB (getAD s) s

/-- Method `incrementAddressBus()`: `addressBus++`. -/
def incrementAddressBus (s : CpuState) : CpuState := setAB (getAB s + 1) s

/-- Row 0 of the `operations` table (source order). -/
def operationsRow0 : List (Nat × Operation) := [(0x00, .BRK), (0x01, .ORA), (0x02, .JAM), (0x03, .SLO), (0x04, .NOP), (0x05, .ORA), (0x06, .ASL), (0x07, .SLO)]

/-- Row 1 of the `operations` table (source order). -/
def operationsRow1 : List (Nat × Operation) := [(0x10, .BPL), (0x11, .ORA), (0x12, .JAM), (0x13, .SLO), (0x14, .NOP), (0x15, .ORA), (0x16, .ASL), (0x17, .SLO)]

/-- Row 2 of the `operations` table (source order). -/
def operationsRow2 : List (Nat × Operation) := [(0x20, .JSR), (0x21, .AND), (0x22, .JAM), (0x23, .RLA), (0x24, .BIT), (0x25, .AND), (0x26, .ROL), (0x27, .RLA)]

/-- Row 3 of the `operations` table (source order). -/
def operationsRow3 : List (Nat × Operation) := [(0x30, .BMI), (0x31, .AND), (0x32, .JAM), (0x33, .RLA), (0x34, .NOP), (0x35, .AND), (0x36, .ROL), (0x37, .RLA)]

/-- Row 4 of the `operations` table (source order). -/
def operationsRow4 : List (Nat × Operation) := [(0x40, .RTI), (0x41, .EOR), (0x42, .JAM), (0x43, .SRE), (0x44, .NOP), (0x45, .EOR), (0x46, .LSR), (0x47, .SRE)]

/-- Row 5 of the `operations` table (source order). -/
def operationsRow5 : List (Nat × Operation) := [(0x50, .BVC), (0x51, .EOR), (0x52, .JAM), (0x53, .SRE), (0x54, .NOP), (0x55, .EOR), (0x56, .LSR), (0x57, .SRE)]

/-- Row 6 of the `operations` table (source order). -/
def operationsRow6 : List (Nat × Operation) := [(0x60, .RTS), (0x61, .ADC), (0x62, .JAM), (0x63, .RRA), (0x64, .NOP), (0x65, .ADC), (0x66, .ROR), (0x67, .RRA)]

/-- Row 7 of the `operations` table (source order). -/
def operationsRow7 : List (Nat × Operation) := [(0x70, .BVS), (0x71, .ADC), (0x72, .JAM), (0x73, .RRA), (0x74, .NOP), (0x75, .ADC), (0x76, .ROR), (0x77, .RRA)]

/-- Row 8 of the `operations` table (source order). -/
def operationsRow8 : List (Nat × Operation) := [(0x80, .NOP), (0x81, .STA), (0x82, .NOP), (0x83, .SAX), (0x84, .STY), (0x85, .STA), (0x86, .STX), (0x87, .SAX)]

/-- Row 9 of the `operations` table (source order). -/
def operationsRow9 : List (Nat × Operation) := [(0x90, .BCC), (0x91, .STA), (0x92, .JAM), (0x93, .SHA), (0x94, .STY), (0x95, .STA), (0x96, .STX), (0x97, .SAX)]

/-- Row 10 of the `operations` table (source order). -/
def operationsRow10 : List (Nat × Operation) := [(0xA0, .LDY), (0xA1, .LDA), (0xA2, .LDX), (0xA3, .LAX), (0xA4, .LDY), (0xA5, .LDA), (0xA6, .LDX), (0xA7, .LAX)]

/-- Row 11 of the `operations` table (source order). -/
def operationsRow11 : List (Nat × Operation) := [(0xB0, .BCS), (0xB1, .LDA), (0xB2, .JAM), (0xB3, .LAX), (0xB4, .LDY), (0xB5, .LDA), (0xB6, .LDX), (0xB7, .LAX)]

/-- Row 12 of the `operations` table (source order). -/
def operationsRow12 : List (Nat × Operation) := [(0xC0, .CPY), (0xC1, .CMP), (0xC2, .NOP), (0xC3, .DCP), (0xC4, .CPY), (0xC5, .CMP), (0xC6, .DEC), (0xC7, .DCP)]

/-- Row 13 of the `operations` table (source order). -/
def operationsRow13 : List (Nat × Operation) := [(0xD0, .BNE), (0xD1, .CMP), (0xD2, .JAM), (0xD3, .DCP), (0xD4, .NOP), (0xD5, .CMP), (0xD6, .DEC), (0xD7, .DCP)]

/-- Row 14 of the `operations` table (source order). -/
def operationsRow14 : List (Nat × Operation) := [(0xE0, .CPX), (0xE1, .SBC), (0xE2, .NOP), (0xE3, .ISB), (0xE4, .CPX), (0xE5, .SBC), (0xE6, .INC), (0xE7, .ISB)]

/-- Row 15 of the `operations` table (source order). -/
def operationsRow15 : List (Nat × Operation) := [(0xF0, .BEQ), (0xF1, .SBC), (0xF2, .JAM), (0xF3, .ISB), (0xF4, .NOP), (0xF5, .SBC), (0xF6, .INC), (0xF7, .ISB)]

/-- Row 16 of the `operations` table (source order). -/
def operationsRow16 : List (Nat × Operation) := [(0x08, .PHP), (0x09, .ORA), (0x0A, .ASL), (0x0B, .ANS), (0x0C, .NOP), (0x0D, .ORA), (0x0E, .ASL), (0x0F, .SLO)]

/-- Row 17 of the `operations` table (source order). -/
def operationsRow17 : List (Nat × Operation) := [(0x18, .CLC), (0x19, .ORA), (0x1A, .NOP), (0x1B, .SLO), (0x1C, .NOP), (0x1D, .ORA), (0x1E, .ASL), (0x1F, .SLO)]

/-- Row 18 of the `operations` table (source order). -/
def operationsRow18 : List (Nat × Operation) := [(0x28, .PLP), (0x29, .AND), (0x2A, .ROL), (0x2B, .ANR), (0x2C, .BIT), (0x2D, .AND), (0x2E, .ROL), (0x2F, .RLA)]

/-- Row 19 of the `operations` table (source order). -/
def operationsRow19 : List (Nat × Operation) := [(0x38, .SEC), (0x39, .AND), (0x3A, .NOP), (0x3B, .RLA), (0x3C, .NOP), (0x3D, .AND), (0x3E, .ROL), (0x3F, .RLA)]

/-- Row 20 of the `operations` table (source order). -/
def operationsRow20 : List (Nat × Operation) := [(0x48, .PHA), (0x49, .EOR), (0x4A, .LSR), (0x4B, .ASR), (0x4C, .JMP), (0x4D, .EOR), (0x4E, .LSR), (0x4F, .SRE)]

/-- Row 21 of the `operations` table (source order). -/
def operationsRow21 : List (Nat × Operation) := [(0x58, .CLI), (0x59, .EOR), (0x5A, .NOP), (0x5B, .SRE), (0x5C, .NOP), (0x5D, .EOR), (0x5E, .LSR), (0x5F, .SRE)]

/-- Row 22 of the `operations` table (source order). -/
def operationsRow22 : List (Nat × Operation) := [(0x68, .PLA), (0x69, .ADC), (0x6A, .ROR), (0x6B, .ARR), (0x6C, .JMP), (0x6D, .ADC), (0x6E, .ROR), (0x6F, .RRA)]

/-- Row 23 of the `operations` table (source order). -/
def operationsRow23 : List (Nat × Operation) := [(0x78, .SEI), (0x79, .ADC), (0x7A, .NOP), (0x7B, .RRA), (0x7C, .NOP), (0x7D, .ADC), (0x7E, .ROR), (0x7F, .RRA)]

/-- Row 24 of the `operations` table (source order). -/
def operationsRow24 : List (Nat × Operation) := [(0x88, .DEY), (0x89, .NOP), (0x8A, .TXA), (0x8B, .ANE), (0x8C, .STY), (0x8D, .STA), (0x8E, .STX), (0x8F, .SAX)]

/-- Row 25 of the `operations` table (source order). -/
def operationsRow25 : List (Nat × Operation) := [(0x98, .TYA), (0x99, .STA), (0x9A, .TXS), (0x9B, .TAS), (0x9C, .SHY), (0x9D, .STA), (0x9E, .SHX), (0x9F, .SHA)]

/-- Row 26 of the `operations` table (source order). -/
def operationsRow26 : List (Nat × Operation) := [(0xA8, .TAY), (0xA9, .LDA), (0xAA, .TAX), (0xAB, .LXA), (0xAC, .LDY), (0xAD, .LDA), (0xAE, .LDX), (0xAF, .LAX)]

/-- Row 27 of the `operations` table (source order). -/
def operationsRow27 : List (Nat × Operation) := [(0xB8, .CLV), (0xB9, .LDA), (0xBA, .TSX), (0xBB, .LEA), (0xBC, .LDY), (0xBD, .LDA), (0xBE, .LDX), (0xBF, .LAX)]

/-- Row 28 of the `operations` table (source order). -/
def operationsRow28 : List (Nat × Operation) := [(0xC8, .INY), (0xC9, .CMP), (0xCA, .DEX), (0xCB, .SBX), (0xCC, .CPY), (0xCD, .CMP), (0xCE, .DEC), (0xCF, .DCP)]

/-- Row 29 of the `operations` table (source order). -/
def operationsRow29 : List (Nat × Operation) := [(0xD8, .CLD), (0xD9, .CMP), (0xDA, .NOP), (0xDB, .DCP), (0xDC, .NOP), (0xDD, .CMP), (0xDE, .DEC), (0xDF, .DCP)]

/-- Row 30 of the `operations` table (source order). -/
def operationsRow30 : List (Nat × Operation) := [(0xE8, .INX), (0xE9, .SBC), (0xEA, .NOP), (0xEB, .USB), (0xEC, .CPX), (0xED, .SBC), (0xEE, .INC), (0xEF, .ISB)]

/-- Row 31 of the `operations` table (source order). -/
def operationsRow31 : List (Nat × Operation) := [(0xF8, .SED), (0xF9, .SBC), (0xFA, .NOP), (0xFB, .ISB), (0xFC, .NOP), (0xFD, .SBC), (0xFE, .INC), (0xFF, .ISB)]

/-- The `operations` collection: the literal (opcode, handler) pairs of the
source object literal, rows concatenated in source order. -/
def operations : List (Nat × Operation) :=
  operationsRow0 ++ operationsRow1 ++ operationsRow2 ++ operationsRow3 ++ operationsRow4 ++ operationsRow5 ++ operationsRow6 ++ operationsRow7 ++ operationsRow8 ++ operationsRow9 ++ operationsRow10 ++ operationsRow11 ++ operationsRow12 ++ operationsRow13 ++ operationsRow14 ++ operationsRow15 ++ operationsRow16 ++ operationsRow17 ++ operationsRow18 ++ operationsRow19 ++ operationsRow20 ++ operationsRow21 ++ operationsRow22 ++ operationsRow23 ++ operationsRow24 ++ operationsRow25 ++ operationsRow26 ++ operationsRow27 ++ operationsRow28 ++ operationsRow29 ++ operationsRow30 ++ operationsRow31

/-- Row 0 of the `addressings` table (source order). -/
def addressingsRow0 : List (Nat × Addressing) := [(0x00, .IMP), (0x01, .IDX), (0x02, .IMM), (0x03, .IDX), (0x04, .ZPG), (0x05, .ZPG), (0x06, .ZPG), (0x07, .ZPG)]

/-- Row 1 of the `addressings` table (source order). -/
def addressingsRow1 : List (Nat × Addressing) := [(0x10, .REL), (0x11, .IDY), (0x12, .IMM), (0x13, .IDY), (0x14, .ZPX), (0x15, .ZPX), (0x16, .ZPX), (0x17, .ZPX)]

/-- Row 2 of the `addressings` table (source order). -/
def addressingsRow2 : List (Nat × Addressing) := [(0x20, .ABS), (0x21, .IDX), (0x22, .IMM), (0x23, .IDX), (0x24, .ZPG), (0x25, .ZPG), (0x26, .ZPG), (0x27, .ZPG)]

/-- Row 3 of the `addressings` table (source order). -/
def addressingsRow3 : List (Nat × Addressing) := [(0x30, .REL), (0x31, .IDY), (0x32, .IMM), (0x33, .IDY), (0x34, .ZPX), (0x35, .ZPX), (0x36, .ZPX), (0x37, .ZPX)]

/-- Row 4 of the `addressings` table (source order). -/
def addressingsRow4 : List (Nat × Addressing) := [(0x40, .IMP), (0x41, .IDX), (0x42, .IMM), (0x43, .IDX), (0x44, .ZPG), (0x45, .ZPG), (0x46, .ZPG), (0x47, .ZPG)]

/-- Row 5 of the `addressings` table (source order). -/
def addressingsRow5 : List (Nat × Addressing) := [(0x50, .REL), (0x51, .IDY), (0x52, .IMM), (0x53, .IDY), (0x54, .ZPX), (0x55, .ZPX), (0x56, .ZPX), (0x57, .ZPX)]

/-- Row 6 of the `addressings` table (source order). -/
def addressingsRow6 : List (Nat × Addressing) := [(0x60, .IMP), (0x61, .IDX), (0x62, .IMM), (0x63, .IDX), (0x64, .ZPG), (0x65, .ZPG), (0x66, .ZPG), (0x67, .ZPG)]

/-- Row 7 of the `addressings` table (source order). -/
def addressingsRow7 : List (Nat × Addressing) := [(0x70, .REL), (0x71, .IDY), (0x72, .IMM), (0x73, .IDY), (0x74, .ZPX), (0x75, .ZPX), (0x76, .ZPX), (0x77, .ZPX)]

/-- Row 8 of the `addressings` table (source order). -/
def addressingsRow8 : List (Nat × Addressing) := [(0x80, .IMM), (0x81, .IDX), (0x82, .IMM), (0x83, .IDX), (0x84, .ZPG), (0x85, .ZPG), (0x86, .ZPG), (0x87, .ZPG)]

/-- Row 9 of the `addressings` table (source order). -/
def addressingsRow9 : List (Nat × Addressing) := [(0x90, .REL), (0x91, .IDY), (0x92, .IMM), (0x93, .IDY), (0x94, .ZPX), (0x95, .ZPX), (0x96, .ZPY), (0x97, .ZPY)]

/-- Row 10 of the `addressings` table (source order). -/
def addressingsRow10 : List (Nat × Addressing) := [(0xA0, .IMM), (0xA1, .IDX), (0xA2, .IMM), (0xA3, .IDX), (0xA4, .ZPG), (0xA5, .ZPG), (0xA6, .ZPG), (0xA7, .ZPG)]

/-- Row 11 of the `addressings` table (source order). -/
def addressingsRow11 : List (Nat × Addressing) := [(0xB0, .REL), (0xB1, .IDY), (0xB2, .IMM), (0xB3, .IDY), (0xB4, .ZPX), (0xB5, .ZPX), (0xB6, .ZPY), (0xB7, .ZPY)]

/-- Row 12 of the `addressings` table (source order). -/
def addressingsRow12 : List (Nat × Addressing) := [(0xC0, .IMM), (0xC1, .IDX), (0xC2, .IMM), (0xC3, .IDX), (0xC4, .ZPG), (0xC5, .ZPG), (0xC6, .ZPG), (0xC7, .ZPG)]

/-- Row 13 of the `addressings` table (source order). -/
def addressingsRow13 : List (Nat × Addressing) := [(0xD0, .REL), (0xD1, .IDY), (0xD2, .IMM), (0xD3, .IDY), (0xD4, .ZPX), (0xD5, .ZPX), (0xD6, .ZPX), (0xD7, .ZPX)]

/-- Row 14 of the `addressings` table (source order). -/
def addressingsRow14 : List (Nat × Addressing) := [(0xE0, .IMM), (0xE1, .IDX), (0xE2, .IMM), (0xE3, .IDX), (0xE4, .ZPG), (0xE5, .ZPG), (0xE6, .ZPG), (0xE7, .ZPG)]

/-- Row 15 of the `addressings` table (source order). -/
def addressingsRow15 : List (Nat × Addressing) := [(0xF0, .REL), (0xF1, .IDY), (0xF2, .IMM), (0xF3, .IDY), (0xF4, .ZPX), (0xF5, .ZPX), (0xF6, .ZPX), (0xF7, .ZPX)]

/-- Row 16 of the `addressings` table (source order). -/
def addressingsRow16 : List (Nat × Addressing) := [(0x08, .IMP), (0x09, .IMM), (0x0A, .ACU), (0x0B, .IMM), (0x0C, .ABS), (0x0D, .ABS), (0x0E, .ABS), (0x0F, .ABS)]

/-- Row 17 of the `addressings` table (source order). -/
def addressingsRow17 : List (Nat × Addressing) := [(0x18, .IMP), (0x19, .ABY), (0x1A, .IMP), (0x1B, .ABY), (0x1C, .ABX), (0x1D, .ABX), (0x1E, .ABX), (0x1F, .ABX)]

/-- Row 18 of the `addressings` table (source order). -/
def addressingsRow18 : List (Nat × Addressing) := [(0x28, .IMP), (0x29, .IMM), (0x2A, .ACU), (0x2B, .IMM), (0x2C, .ABS), (0x2D, .ABS), (0x2E, .ABS), (0x2F, .ABS)]

/-- Row 19 of the `addressings` table (source order). -/
def addressingsRow19 : List (Nat × Addressing) := [(0x38, .IMP), (0x39, .ABY), (0x3A, .IMP), (0x3B, .ABY), (0x3C, .ABX), (0x3D, .ABX), (0x3E, .ABX), (0x3F, .ABX)]

/-- Row 20 of the `addressings` table (source order). -/
def addressingsRow20 : List (Nat × Addressing) := [(0x48, .IMP), (0x49, .IMM), (0x4A, .ACU), (0x4B, .IMM), (0x4C, .ABS), (0x4D, .ABS), (0x4E, .ABS), (0x4F, .ABS)]

/-- Row 21 of the `addressings` table (source order). -/
def addressingsRow21 : List (Nat × Addressing) := [(0x58, .IMP), (0x59, .ABY), (0x5A, .IMP), (0x5B, .ABY), (0x5C, .ABX), (0x5D, .ABX), (0x5E, .ABX), (0x5F, .ABX)]

/-- Row 22 of the `addressings` table (source order). -/
def addressingsRow22 : List (Nat × Addressing) := [(0x68, .IMP), (0x69, .IMM), (0x6A, .ACU), (0x6B, .IMM), (0x6C, .ABS), (0x6D, .ABS), (0x6E, .ABS), (0x6F, .ABS)]

/-- Row 23 of the `addressings` table (source order). -/
def addressingsRow23 : List (Nat × Addressing) := [(0x78, .IMP), (0x79, .ABY), (0x7A, .IMP), (0x7B, .ABY), (0x7C, .ABX), (0x7D, .ABX), (0x7E, .ABX), (0x7F, .ABX)]

/-- Row 24 of the `addressings` table (source order). -/
def addressingsRow24 : List (Nat × Addressing) := [(0x88, .IMP), (0x89, .IMM), (0x8A, .IMP), (0x8B, .IMM), (0x8C, .ABS), (0x8D, .ABS), (0x8E, .ABS), (0x8F, .ABS)]

/-- Row 25 of the `addressings` table (source order). -/
def addressingsRow25 : List (Nat × Addressing) := [(0x98, .IMP), (0x99, .ABY), (0x9A, .IMP), (0x9B, .ABY), (0x9C, .ABX), (0x9D, .ABX), (0x9E, .ABY), (0x9F, .ABY)]

/-- Row 26 of the `addressings` table (source order). -/
def addressingsRow26 : List (Nat × Addressing) := [(0xA8, .IMP), (0xA9, .IMM), (0xAA, .IMP), (0xAB, .IMM), (0xAC, .ABS), (0xAD, .ABS), (0xAE, .ABS), (0xAF, .ABS)]

/-- Row 27 of the `addressings` table (source order). -/
def addressingsRow27 : List (Nat × Addressing) := [(0xB8, .IMP), (0xB9, .ABY), (0xBA, .IMP), (0xBB, .ABY), (0xBC, .ABX), (0xBD, .ABX), (0xBE, .ABY), (0xBF, .ABY)]

/-- Row 28 of the `addressings` table (source order). -/
def addressingsRow28 : List (Nat × Addressing) := [(0xC8, .IMP), (0xC9, .IMM), (0xCA, .IMP), (0xCB, .IMM), (0xCC, .ABS), (0xCD, .ABS), (0xCE, .ABS), (0xCF, .ABS)]

/-- Row 29 of the `addressings` table (source order). -/
def addressingsRow29 : List (Nat × Addressing) := [(0xD8, .IMP), (0xD9, .ABY), (0xDA, .IMP), (0xDB, .ABY), (0xDC, .ABX), (0xDD, .ABX), (0xDE, .ABX), (0xDF, .ABX)]

/-- Row 30 of the `addressings` table (source order). -/
def addressingsRow30 : List (Nat × Addressing) := [(0xE8, .IMP), (0xE9, .IMM), (0xEA, .IMP), (0xEB, .IMM), (0xEC, .ABS), (0xED, .ABS), (0xEE, .ABS), (0xEF, .ABS)]

/-- Row 31 of the `addressings` table (source order). -/
def addressingsRow31 : List (Nat × Addressing) := [(0xF8, .IMP), (0xF9, .ABY), (0xFA, .IMP), (0xFB, .ABY), (0xFC, .ABX), (0xFD, .ABX), (0xFE, .ABX), (0xFF, .ABX)]

/-- The `addressings` collection: the literal (opcode, handler) pairs of the
source object literal, rows concatenated in source order. -/
def addressings : List (Nat × Addressing) :=
  addressingsRow0 ++ addressingsRow1 ++ addressingsRow2 ++ addressingsRow3 ++ addressingsRow4 ++ addressingsRow5 ++ addressingsRow6 ++ addressingsRow7 ++ addressingsRow8 ++ addressingsRow9 ++ addressingsRow10 ++ addressingsRow11 ++ addressingsRow12 ++ addressingsRow13 ++ addressingsRow14 ++ addressingsRow15 ++ addressingsRow16 ++ addressingsRow17 ++ addressingsRow18 ++ addressingsRow19 ++ addressingsRow20 ++ addressingsRow21 ++ addressingsRow22 ++ addressingsRow23 ++ addressingsRow24 ++ addressingsRow25 ++ addressingsRow26 ++ addressingsRow27 ++ addressingsRow28 ++ addressingsRow29 ++ addressingsRow30 ++ addressingsRow31

/-- Method `addSequence(...callbacks)`: the loop walks `callbacks` from the
last index down to 0 and prepends each one (`sequences = [cb, ...sequences]`),
so the whole batch ends up at the front of the array in supplied order. -/
def addSequence (callbacks : List MicroStep) (q : List MicroStep) : List MicroStep :=
  callbacks.foldr (fun cb acc => cb :: acc) q

/-- Method `nextSequence()`: `sequences.pop() || ___` — `Array.pop` removes
and returns the LAST element of the array; on an empty array it yields
`undefined`, defaulted to the `___` no-op. -/
def nextSequence (q : List MicroStep) : MicroStep × List MicroStep :=
  match q.getLast? with
  | some st => (st, q.dropLast)
  | none => (MicroStep.noop, q)

/-- Modelled from the spec: the `LDA` handler body is an empty stub in
`src/src/cpu6510.ts` (spec §4.4 says handler semantics are abstract and must
be implemented per the 6502 ISA reference).  Per the spec, a handler reads its
operand via the bus state already positioned by the addressing decoder (every
memory access sets the address bus then reads the data bus), computes the
result, and updates the status flags: `LDA` loads the fetched byte into the
accumulator and sets the zero and negative flags from it. -/
def LDA_spec (mem : Nat → Nat) (s : CpuState) : CpuState :=
  let s1 := fetch mem s
  let s2 := { s1 with AC := byteOf s1.IO_DB }
  let s3 := setZeroFlag (if s2.AC = 0 then 1 else 0) s2
  setNegativeFlag (if Nat.testBit s2.AC 7 then 1 else 0) s3

/-- Modelled from the spec: the `JAM` handler body is an empty stub in
`src/src/cpu6510.ts`.  Spec §4.4 requires the halt operation to leave the CPU
unable to fetch further instructions until an external reset and to report a
distinguishable state; the source's own doc comment on `JAM` says the data
bus buffer will be set to `0xFF`.  Modelled as: set the data bus to `0xFF`
and enqueue a self-perpetuating halt micro-step, so the queue never drains
and the fetch branch of `clock()` is never reached again. -/
def JAM_spec (s : CpuState) : CpuState :=
  { s with IO_DB := byteOf 0xFF,
           sequences := addSequence [MicroStep.jam] s.sequences }

/-- Interpretation of an operation handler.  Every handler body in the source
is an empty stub (identity); `LDA` and `JAM` are modelled from the spec. -/
def runOperation (mem : Nat → Nat) : Operation → CpuState → CpuState
  | Operation.LDA => LDA_spec mem
  | Operation.JAM => JAM_spec
  | _ => fun s => s

/-- Interpretation of a micro-step closure: each case is the body of the
corresponding `T*` local function in the source, line for line. -/
def runMicroStep (mem : Nat → Nat) : MicroStep → CpuState → CpuState
  | MicroStep.noop => fun s => s
  | MicroStep.jam => JAM_spec
  | MicroStep.acuT1 op => fun s =>
      runOperation mem op (addressingProgramCounter s)
  | MicroStep.impT1 op => fun s =>
      runOperation mem op (addressingProgramCounter s)
  | MicroStep.immT1 op => fun s =>
      runOperation mem op (incrementProgramCounter (addressingProgramCounter s))
  | MicroStep.absT1 => fun s =>
      setInternalDataBus (fetch mem (incrementProgramCounter (addressingProgramCounter s)))
  | MicroStep.absT2 => fun s =>
      setInternalDataBus (fetch mem (incrementProgramCounter (addressingProgramCounter
        { s with I_ADL := byteOf s.I_DB })))
  | MicroStep.absT3 op => fun s =>
      runOperation mem op (addressingInternalAddressData { s with I_ADH := byteOf s.I_DB })
  | MicroStep.abxT1 => fun s =>
      setInternalDataBus (fetch mem (incrementProgramCounter (addressingProgramCounter s)))
  | MicroStep.abxT2 => fun s =>
      setInternalDataBus (fetch mem (incrementProgramCounter (addressingProgramCounter
        { s with I_ADL := byteOf s.I_DB })))
  | MicroStep.abxT3 op => fun s =>
      let s1 := { s with I_ADH := byteOf s.I_DB }
      let s2 := setAD (getAD s1 + byteOf s1.XR) s1
      let s3 := addressingInternalAddressData s2
      if byteOf s3.I_ADH * 256 ≠ byteOf s3.I_DB then
        { s3 with sequences := addSequence [MicroStep.abxT4 op] s3.sequences }
      else
        runOperation mem op s3
  | MicroStep.abxT4 op => fun s => runOperation mem op s
  | MicroStep.abyT1 => fun s =>
      setInternalDataBus (fetch mem (incrementProgramCounter (addressingProgramCounter s)))
  | MicroStep.abyT2 => fun s =>
      setInternalDataBus (fetch mem (incrementProgramCounter (addressingProgramCounter
        { s with I_ADL := byteOf s.I_DB })))
  | MicroStep.abyT3 op => fun s =>
      let s1 := { s with I_ADH := byteOf s.I_DB }
      let s2 := setAD (getAD s1 + byteOf s1.YR) s1
      let s3 := addressingInternalAddressData s2
      if byteOf s3.I_ADH * 256 ≠ byteOf s3.I_DB then
        { s3 with sequences := addSequence [MicroStep.abyT4 op] s3.sequences }
      else
        runOperation mem op s3
  | MicroStep.abyT4 op => fun s => runOperation mem op s
  | MicroStep.zpgT1 => fun s =>
      setInternalDataBus (fetch mem (incrementProgramCounter (addressingProgramCounter s)))
  | MicroStep.zpgT2 op => fun s =>
      runOperation mem op (addressingInternalAddressData { s with I_ADL := byteOf s.I_DB })
  | MicroStep.zpxT1 => fun s =>
      setInternalDataBus (fetch mem (incrementProgramCounter (addressingProgramCounter s)))
  | MicroStep.zpxT2 => fun s =>
      fetch mem (addressingInternalAddressData { s with I_ADL := byteOf s.I_DB })
  | MicroStep.zpxT3 op => fun s =>
      runOperation mem op (addressingInternalAddressData
        { s with I_ADL := byteOf (byteOf s.I_ADL + byteOf s.XR) })
  | MicroStep.zpyT1 => fun s =>
      setInternalDataBus (fetch mem (incrementProgramCounter (addressingProgramCounter s)))
  | MicroStep.zpyT2 => fun s =>
      fetch mem (addressingInternalAddressData { s with I_ADL := byteOf s.I_DB })
  | MicroStep.zpyT3 op => fun s =>
      runOperation mem op (addressingInternalAddressData
        { s with I_ADL := byteOf (byteOf s.I_ADL + byteOf s.YR) })
  | MicroStep.idxT1 => fun s =>
      setInternalDataBus (fetch mem (incrementProgramCounter (addressingProgramCounter s)))
  | MicroStep.idxT2 => fun s =>
      fetch mem (addressingInternalAddressData { s with I_ADL := byteOf s.I_DB })
  | MicroStep.idxT3 => fun s =>
      setInternalDataBus (fetch mem (addressingInternalAddressData
        { s with I_ADL := byteOf (byteOf s.I_ADL + byteOf s.XR) }))
  | MicroStep.idxT4 => fun s =>
      setInternalDataBus (fetch mem (incrementAddressBus { s with I_ADL := byteOf s.I_DB }))
  | MicroStep.idxT5 op => fun s =>
      runOperation mem op (addressingInternalAddressData { s with I_ADH := byteOf s.I_DB })
  | MicroStep.idyT1 => fun s =>
      setInternalDataBus (fetch mem (incrementProgramCounter (addressingProgramCounter s)))
  | MicroStep.idyT2 => fun s =>
      setInternalDataBus (fetch mem (addressingInternalAddressData
        { s with I_ADL := byteOf s.I_DB }))
  | MicroStep.idyT3 => fun s =>
      setInternalDataBus (fetch mem (incrementAddressBus { s with I_ADL := byteOf s.I_DB }))
  | MicroStep.idyT4 op => fun s =>
      let s1 := { s with I_ADH := byteOf s.I_DB }
      let s2 := setAD (getAD s1 + byteOf s1.YR) s1
      let s3 := addressingInternalAddressData s2
      if byteOf s3.I_ADH * 256 ≠ byteOf s3.I_DB then
        { s3 with sequences := addSequence [MicroStep.idyT5 op] s3.sequences }
      else
        runOperation mem op s3
  | MicroStep.idyT5 op => fun s => runOperation mem op s
  | MicroStep.relT1 op => fun s =>
      runOperation mem op (setInternalDataBus (fetch mem (incrementProgramCounter
        (addressingProgramCounter s))))

/-- The batch of micro-step closures each addressing-mode decoder passes to
`addSequence`, with the operation it looked up from `operations` at entry. -/
def batchFor (a : Addressing) (op : Operation) : List MicroStep :=
  match a with
  | Addressing.ACU => [MicroStep.acuT1 op]
  | Addressing.IMM => [MicroStep.immT1 op]
  | Addressing.IMP => [MicroStep.impT1 op]
  | Addressing.ABS => [MicroStep.absT1, MicroStep.absT2, MicroStep.absT3 op]
  | Addressing.ABX => [MicroStep.abxT1, MicroStep.abxT2, MicroStep.abxT3 op]
  | Addressing.ABY => [MicroStep.abyT1, MicroStep.abyT2, MicroStep.abyT3 op]
  | Addressing.ZPG => [MicroStep.zpgT1, MicroStep.zpgT2 op]
  | Addressing.ZPX => [MicroStep.zpxT1, MicroStep.zpxT2, MicroStep.zpxT3 op]
  | Addressing.ZPY => [MicroStep.zpyT1, MicroStep.zpyT2, MicroStep.zpyT3 op]
  | Addressing.IDX => [MicroStep.idxT1, MicroStep.idxT2, MicroStep.idxT3,
                       MicroStep.idxT4, MicroStep.idxT5 op]
  | Addressing.IDY => [MicroStep.idyT1, MicroStep.idyT2, MicroStep.idyT3,
                       MicroStep.idyT4 op]
  | Addressing.REL => [MicroStep.relT1 op]

/-- An addressing-mode decoder call: enqueue the mode's batch via
`addSequence`. -/
def decodeAddressing (a : Addressing) (op : Operation) (s : CpuState) : CpuState :=
  { s with sequences := addSequence (batchFor a op) s.sequences }

/-- Method `clock()`: if the queue is non-empty, pop (via `nextSequence`) and
run one micro-step; otherwise fetch the opcode at the program counter,
advance the counter, latch the instruction, clear the internal latches, and
invoke the addressing decoder bound to the opcode (which looks up the bound
operation handler and enqueues the mode's micro-steps). -/
def clock (mem : Nat → Nat) (s : CpuState) : CpuState :=
  if s.sequences ≠ [] then
    let p := nextSequence s.sequences
    runMicroStep mem p.1 { s with sequences := p.2 }
  else
    let s1 := addressingProgramCounter s
    let s2 := incrementProgramCounter s1
    let s3 := fetch mem s2
    let s4 := { s3 with I_I := byteOf s3.IO_DB }
    let s5 := setAD 0 s4
    let s6 := { s5 with I_DB := byteOf 0 }
    decodeAddressing ((addressings.lookup s6.I_I).getD Addressing.IMP)
      ((operations.lookup s6.I_I).getD Operation.NOP) s6

/-- Method `defaultState()`: assigns, through the setters and in source
order, `programCounter = 0xFFFC`, `statusRegister = 0b00000100`,
`stackPointer = 0`, `accumulator = 0`, `indexX = 0`, `indexY = 0`,
`internalInstruction = 0`, `internalAddressData = 0`, `sequences = []`,
`addressBus = 0`, `dataBus = 0`.  The eleven successive setter calls write
pairwise-disjoint fields, so they are rendered as one simultaneous update
(each value passes through the same byte/word masks the setters apply).
Note it does NOT assign the internal data-bus latch `I_DB`. -/
def defaultState (s : CpuState) : CpuState :=
  { s with
    PCL := byteOf (wordOf 0xFFFC), PCH := byteOf (wordOf 0xFFFC / 256),
    PS := byteOf 0b00000100,
    SP := byteOf 0,
    AC := byteOf 0,
    XR := byteOf 0,
    YR := byteOf 0,
    I_I := byteOf 0,
    I_ADL := byteOf (wordOf 0), I_ADH := byteOf (wordOf 0 / 256),
    sequences := [],
    IO_ABL := byteOf (wordOf 0), IO_ABH := byteOf (wordOf 0 / 256),
    IO_DB := byteOf 0 }

/-- Method `reset()`: delegates to `defaultState()`. -/
def reset (s : CpuState) : CpuState := defaultState s

/-- Method `interruptRequest()`: `if (interruptFlag) breakFlag = 1` — the
guard is the raw truthiness of the 0/1 interrupt-disable flag bit. -/
def interruptRequest (s : CpuState) : CpuState :=
  if interruptFlag s ≠ 0 then setBreakFlag 1 s else s

/-- Method `nonMaskableInterrupt()`: unconditionally `breakFlag = 1`. -/
def nonMaskableInterrupt (s : CpuState) : CpuState := setBreakFlag 1 s

/-- Method `setOverflow()`: `overflowFlag = 1`. -/
def setOverflowPin (s : CpuState) : CpuState := setOverflowFlag 1 s

/-- The constructor `new cpu6510(memory, debug)`: TypeScript field
initialisers zero every register/latch/pin and make the queue empty, then the
constructor stores `debug` and calls `defaultState()`. -/
def construct (d : Bool) : CpuState :=
  defaultState ⟨0, 0, 0, 0, 0, 0, 0, 0, 0, 0, 0, 0, 0, 0, [], d⟩

/-- Iterated clock pulses. -/
def clockN (mem : Nat → Nat) : Nat → CpuState → CpuState
  | 0, s => s
  | n + 1, s => clockN mem n (clock mem s)

/-- The public pin-level entry points a driver may call. -/
inductive PinCall where
  | clock
  | reset
  | irq
  | nmi
  | so
deriving DecidableEq

/-- Dispatch one public entry-point call. -/
def runCall (mem : Nat → Nat) : PinCall → CpuState → CpuState
  | PinCall.clock => clock mem
  | PinCall.reset => reset
  | PinCall.irq => interruptRequest
  | PinCall.nmi => nonMaskableInterrupt
  | PinCall.so => setOverflowPin

/-- Run a sequence of public entry-point calls, left to right. -/
def runCalls (mem : Nat → Nat) (cs : List PinCall) (s : CpuState) : CpuState :=
  cs.foldl (fun st c => runCall mem c st) s

/-- Forget the debug flag: every observable CPU component except `debug`. -/
def stripDebug (s : CpuState) : CpuState := { s with debug := false }

/-! ## Supporting lemmas -/

/-- Recomposing the address bus after a 16-bit store yields the stored word. -/
theorem getAB_setAB (d : Nat) (s : CpuState) : getAB (setAB d s) = wordOf d := by
  unfold getAB setAB byteOf wordOf
  simp only
  omega

/-- With an empty queue, `clock()` drives the address bus from the program
counter (the opcode-fetch transaction). -/
theorem getAB_clock_of_empty (mem : Nat → Nat) (s : CpuState) (h : s.sequences = []) :
    getAB (clock mem s) = wordOf (getPC s) := by
  cases s with
  | mk pcl pch ps sp ac xr yr ii adl adh idb iodb abl abh seq dbg =>
    dsimp only at h
    subst h
    exact getAB_setAB (getPC ⟨pcl, pch, ps, sp, ac, xr, yr, ii, adl, adh, idb, iodb, abl, abh, [], dbg⟩)
      ⟨pcl, pch, ps, sp, ac, xr, yr, ii, adl, adh, idb, iodb, abl, abh, [], dbg⟩

/-- The `clock()` immediately after `reset()` performs a fresh opcode fetch at
the reset program counter 0xFFFC. -/
theorem getAB_clock_reset (mem : Nat → Nat) (s : CpuState) :
    getAB (clock mem (reset s)) = 0xFFFC := by
  rw [getAB_clock_of_empty mem (reset s) rfl]
  have hh : (reset s).PCH = 0xFF := rfl
  have hl : (reset s).PCL = 0xFC := rfl
  unfold getPC
  rw [hh, hl]
  norm_num [wordOf]

/-- Shape of the opcode-fetch branch of `clock()` on the freshly constructed
CPU, for an arbitrary memory collaborator. -/
theorem clock_construct_shape (mem : Nat → Nat) :
    clock mem (construct false) =
      decodeAddressing ((addressings.lookup (byteOf (byteOf (mem 0xFFFC)))).getD Addressing.IMP)
        ((operations.lookup (byteOf (byteOf (mem 0xFFFC)))).getD Operation.NOP)
        ⟨0xFD, 0xFF, 4, 0, 0, 0, 0, byteOf (byteOf (mem 0xFFFC)), 0, 0, 0, byteOf (mem 0xFFFC),
         0xFC, 0xFF, [], false⟩ := rfl

/-- `clock()` on a non-empty queue pops the LAST element of the `sequences`
array (`Array.pop`) and runs it on the shortened queue. -/
theorem clock_pop (mem : Nat → Nat) (s : CpuState) (st : MicroStep) (q : List MicroStep)
    (h : s.sequences = q ++ [st]) :
    clock mem s = runMicroStep mem st { s with sequences := q } := by
  unfold clock
  rw [if_pos (by simp [h])]
  rw [nextSequence, h]
  rw [List.getLast?_concat, List.dropLast_concat]

/-- A state whose queue holds exactly the halt step and whose data bus shows
0xFF is a fixed point of `clock()`. -/
theorem jam_fix (mem : Nat → Nat) (s : CpuState)
    (h1 : s.sequences = [MicroStep.jam]) (h2 : s.IO_DB = 0xFF) :
    clock mem s = s := by
  cases s
  simp_all [clock, nextSequence, runMicroStep, JAM_spec, addSequence, byteOf]

/-- Operation handlers neither read nor write the `debug` flag. -/
theorem runOperation_debug (mem : Nat → Nat) (op : Operation) (s : CpuState) (d : Bool) :
    runOperation mem op { s with debug := d } = { runOperation mem op s with debug := d } := by
  cases s
  cases op <;> rfl

/-- Micro-steps neither read nor write the `debug` flag. -/
theorem runMicroStep_debug (mem : Nat → Nat) (st : MicroStep) (s : CpuState) (d : Bool) :
    runMicroStep mem st { s with debug := d } = { runMicroStep mem st s with debug := d } := by
  cases st with
  | noop => rfl
  | jam => rfl
  | acuT1 op => exact runOperation_debug mem op (addressingProgramCounter s) d
  | impT1 op => exact runOperation_debug mem op (addressingProgramCounter s) d
  | immT1 op =>
      exact runOperation_debug mem op (incrementProgramCounter (addressingProgramCounter s)) d
  | absT1 => rfl
  | absT2 => rfl
  | absT3 op =>
      exact runOperation_debug mem op
        (addressingInternalAddressData { s with I_ADH := byteOf s.I_DB }) d
  | abxT1 => rfl
  | abxT2 => rfl
  | abxT3 op =>
      cases op <;> (unfold runMicroStep; dsimp only [addressingInternalAddressData, setAD, getAD, setAB, byteOf, wordOf]; split <;> rfl)
  | abxT4 op => exact runOperation_debug mem op s d
  | abyT1 => rfl
  | abyT2 => rfl
  | abyT3 op =>
      cases op <;> (unfold runMicroStep; dsimp only [addressingInternalAddressData, setAD, getAD, setAB, byteOf, wordOf]; split <;> rfl)
  | abyT4 op => exact runOperation_debug mem op s d
  | zpgT1 => rfl
  | zpgT2 op =>
      exact runOperation_debug mem op
        (addressingInternalAddressData { s with I_ADL := byteOf s.I_DB }) d
  | zpxT1 => rfl
  | zpxT2 => rfl
  | zpxT3 op =>
      exact runOperation_debug mem op
        (addressingInternalAddressData
          { s with I_ADL := byteOf (byteOf s.I_ADL + byteOf s.XR) }) d
  | zpyT1 => rfl
  | zpyT2 => rfl
  | zpyT3 op =>
      exact runOperation_debug mem op
        (addressingInternalAddressData
          { s with I_ADL := byteOf (byteOf s.I_ADL + byteOf s.YR) }) d
  | idxT1 => rfl
  | idxT2 => rfl
  | idxT3 => rfl
  | idxT4 => rfl
  | idxT5 op =>
      exact runOperation_debug mem op
        (addressingInternalAddressData { s with I_ADH := byteOf s.I_DB }) d
  | idyT1 => rfl
  | idyT2 => rfl
  | idyT3 => rfl
  | idyT4 op =>
      cases op <;> (unfold runMicroStep; dsimp only [addressingInternalAddressData, setAD, getAD, setAB, byteOf, wordOf]; split <;> rfl)
  | idyT5 op => exact runOperation_debug mem op s d
  | relT1 op =>
      exact runOperation_debug mem op
        (setInternalDataBus (fetch mem (incrementProgramCounter
          (addressingProgramCounter s)))) d

/-- A clock pulse neither reads nor writes the `debug` flag. -/
theorem clock_debug (mem : Nat → Nat) (s : CpuState) (d : Bool) :
    clock mem { s with debug := d } = { clock mem s with debug := d } := by
  by_cases h : s.sequences = []
  · cases s with
    | mk pcl pch ps sp ac xr yr ii adl adh idb iodb abl abh seq dbg =>
        dsimp only at h
        subst h
        rfl
  · simp only [clock]
    rw [if_pos (by simpa using h), if_pos (by simpa using h)]
    exact runMicroStep_debug mem (nextSequence s.sequences).1
      { s with sequences := (nextSequence s.sequences).2 } d

/-- `reset()` neither reads nor writes the `debug` flag. -/
theorem reset_debug (s : CpuState) (d : Bool) :
    reset { s with debug := d } = { reset s with debug := d } := rfl

/-- `interruptRequest()` neither reads nor writes the `debug` flag. -/
theorem interruptRequest_debug (s : CpuState) (d : Bool) :
    interruptRequest { s with debug := d } = { interruptRequest s with debug := d } := by
  unfold interruptRequest interruptFlag
  dsimp only
  split <;> rfl

/-- No public entry point reads or writes the `debug` flag. -/
theorem runCall_debug (mem : Nat → Nat) (c : PinCall) (s : CpuState) (d : Bool) :
    runCall mem c { s with debug := d } = { runCall mem c s with debug := d } := by
  cases c with
  | clock => exact clock_debug mem s d
  | reset => exact reset_debug s d
  | irq => exact interruptRequest_debug s d
  | nmi => rfl
  | so => rfl

/-- No sequence of public entry-point calls reads or writes the `debug` flag. -/
theorem runCalls_debug (mem : Nat → Nat) (cs : List PinCall) (s : CpuState) (d : Bool) :
    runCalls mem cs { s with debug := d } = { runCalls mem cs s with debug := d } := by
  induction cs generalizing s with
  | nil => rfl
  | cons c cs ih =>
      show runCalls mem cs (runCall mem c { s with debug := d }) = _
      rw [runCall_debug mem c s d]
      exact ih (runCall mem c s)

/-! ## Claim theorems -/

/-- Claim C1 (code bug, evaluated at the failing input): `addSequence`
prepends a decode batch to the queue in supplied order, but `nextSequence`
pops the LAST array element, so the batch executes last-supplied-first.
Concretely: decoding opcode 0x0D (ORA absolute) enqueues `[T1, T2, T3]`, and
the very next `clock()` consumes `T3` — leaving `[T1, T2]` — instead of `T1`,
contradicting FIFO execution of the batch. -/
theorem c1_batch_executes_in_reverse_order :
    addSequence [MicroStep.absT1, MicroStep.absT2, MicroStep.absT3 Operation.ORA] [] =
      [MicroStep.absT1, MicroStep.absT2, MicroStep.absT3 Operation.ORA] ∧
    nextSequence [MicroStep.absT1, MicroStep.absT2, MicroStep.absT3 Operation.ORA] =
      (MicroStep.absT3 Operation.ORA, [MicroStep.absT1, MicroStep.absT2]) ∧
    (clock (fun a => if a = 0xFFFC then 0x0D else 0) (construct false)).sequences =
      [MicroStep.absT1, MicroStep.absT2, MicroStep.absT3 Operation.ORA] ∧
    (clock (fun a => if a = 0xFFFC then 0x0D else 0)
        (clock (fun a => if a = 0xFFFC then 0x0D else 0) (construct false))).sequences =
      [MicroStep.absT1, MicroStep.absT2] := by
  decide

/-- Claim C2 (code bug, evaluated at the failing input): executing opcode
0x1D (ORA absolute,X) with operand bytes 0xFF 0x20 (base 0x20FF) and X = 1.
Because micro-steps run in reverse order, the address-computation step `T3`
runs first: the address bus over the four clock pulses takes the values
0xFFFC (opcode fetch), 0x0001, 0xFFFD, 0xFFFE — the effective address 0x2100
is never driven onto the bus — and the queue shrinks 3, 2, 1, 0, so no
penalty micro-step is ever inserted. -/
theorem c2_abx_indexed_address_and_penalty_trace :
    (let m : Nat → Nat := fun a =>
      if a = 0xFFFC then 0x1D else if a = 0xFFFD then 0xFF else if a = 0xFFFE then 0x20 else 0
     let s0 : CpuState := { construct false with XR := 1 }
     let s1 := clock m s0
     let s2 := clock m s1
     let s3 := clock m s2
     let s4 := clock m s3
     s1.sequences = [MicroStep.abxT1, MicroStep.abxT2, MicroStep.abxT3 Operation.ORA] ∧
     getAB s1 = 0xFFFC ∧ getAB s2 = 0x0001 ∧ getAB s3 = 0xFFFD ∧ getAB s4 = 0xFFFE ∧
     s2.sequences = [MicroStep.abxT1, MicroStep.abxT2] ∧
     s3.sequences = [MicroStep.abxT1] ∧ s4.sequences = []) := by
  decide

/-- Claim C3 (code bug, evaluated at the failing input): the guard in
`interruptRequest()` is `if (interruptFlag)`, so with the power-up status
0b00000100 (interrupt-disable SET) the call sets the break flag
(status becomes 0b00010100), while with the interrupt-disable flag CLEAR
(status 0) the call leaves the status register unchanged — exactly the
inverse of the claimed maskable behaviour. -/
theorem c3_interrupt_request_sets_break_when_disable_set :
    (interruptRequest (construct false)).PS = 0b00010100 ∧
    interruptFlag (construct false) = 1 ∧
    interruptRequest { construct false with PS := 0 } = { construct false with PS := 0 } := by
  decide

/-- Claim C4, counterexample: the internal data-bus latch `I_DB` is not
restored by `reset()`.  Running three clock pulses (opcode 0x0D at 0xFFFC,
memory elsewhere 0x55) latches 0x55 into `I_DB`; after `reset()` the latch
still holds 0x55, while its power-up value is 0. -/
theorem c4_reset_leaves_internal_data_bus_latch :
    (construct false).I_DB = 0 ∧
    (let m : Nat → Nat := fun a => if a = 0xFFFC then 0x0D else 0x55
     (reset (clock m (clock m (clock m (construct false))))).I_DB = 0x55) := by
  decide

/-- Claim C4 as amended: after any prior state, `reset()` restores program
counter 0xFFFC, status 0b00000100, stack pointer, accumulator, X and Y to 0,
clears the instruction latch and the address-data latch, empties the
micro-step queue, zeroes the bus pins — but the internal data-bus latch
`I_DB` keeps its prior value — and the immediately following `clock()`
performs a fresh opcode fetch with address bus 0xFFFC. -/
theorem c4_reset_restores_power_up_state_except_data_latch
    (mem : Nat → Nat) (s : CpuState) :
    getPC (reset s) = 0xFFFC ∧
    (reset s).PS = 0b00000100 ∧
    (reset s).SP = 0 ∧
    (reset s).AC = 0 ∧
    (reset s).XR = 0 ∧
    (reset s).YR = 0 ∧
    (reset s).I_I = 0 ∧
    getAD (reset s) = 0 ∧
    (reset s).sequences = [] ∧
    getAB (reset s) = 0 ∧
    (reset s).IO_DB = 0 ∧
    (reset s).I_DB = s.I_DB ∧
    getAB (clock mem (reset s)) = 0xFFFC := by
  have hr : reset s = ⟨0xFC, 0xFF, 4, 0, 0, 0, 0, 0, 0, 0, s.I_DB, 0, 0, 0, [], s.debug⟩ := rfl
  rw [hr]
  refine ⟨?_, rfl, rfl, rfl, rfl, rfl, rfl, ?_, rfl, ?_, rfl, rfl, ?_⟩
  · norm_num [getPC, wordOf]
  · norm_num [getAD, wordOf]
  · norm_num [getAB, wordOf]
  · rw [getAB_clock_of_empty mem _ rfl]
    norm_num [getPC, wordOf]

/-- Claim C5 (with the `LDA` handler modelled from the spec, since its body
is a stub in the source): from the power-up state, if memory holds 0xA9
(LDA immediate) at the program-counter address 0xFFFC and 0x42 at 0xFFFD,
then after two `clock()` pulses the accumulator is 0x42, the zero and
negative flags are clear, and the micro-step queue is empty. -/
theorem c5_lda_immediate_end_to_end (mem : Nat → Nat)
    (h1 : mem 0xFFFC = 0xA9) (h2 : mem 0xFFFD = 0x42) :
    (clock mem (clock mem (construct false))).AC = 0x42 ∧
    zeroFlag (clock mem (clock mem (construct false))) = 0 ∧
    negativeFlag (clock mem (clock mem (construct false))) = 0 ∧
    (clock mem (clock mem (construct false))).sequences = [] := by
  have e1 : clock mem (construct false) =
      ⟨0xFD, 0xFF, 4, 0, 0, 0, 0, 0xA9, 0, 0, 0, 0xA9, 0xFC, 0xFF,
       [MicroStep.immT1 Operation.LDA], false⟩ := by
    rw [clock_construct_shape mem, h1]
    decide
  rw [e1]
  have e2 : clock mem (⟨0xFD, 0xFF, 4, 0, 0, 0, 0, 0xA9, 0, 0, 0, 0xA9, 0xFC, 0xFF,
        [MicroStep.immT1 Operation.LDA], false⟩ : CpuState) =
      ⟨0xFE, 0xFF, 4, 0, 0x42, 0, 0, 0xA9, 0, 0, 0, 0x42, 0xFD, 0xFF, [], false⟩ := by
    rw [clock_pop mem _ (MicroStep.immT1 Operation.LDA) [] (by decide)]
    simp only [runMicroStep, runOperation]
    rw [show incrementProgramCounter (addressingProgramCounter
        (⟨0xFD, 0xFF, 4, 0, 0, 0, 0, 0xA9, 0, 0, 0, 0xA9, 0xFC, 0xFF, [], false⟩ : CpuState)) =
        ⟨0xFE, 0xFF, 4, 0, 0, 0, 0, 0xA9, 0, 0, 0, 0xA9, 0xFD, 0xFF, [], false⟩ from by decide]
    unfold LDA_spec fetch
    rw [show getAB (⟨0xFE, 0xFF, 4, 0, 0, 0, 0, 0xA9, 0, 0, 0, 0xA9, 0xFD, 0xFF, [], false⟩ :
        CpuState) = 0xFFFD from by decide]
    rw [h2]
    decide
  rw [e2]
  decide

/-- Witness for C5 at a concrete memory image. -/
theorem c5_lda_immediate_end_to_end_witness :
    ((fun a : Nat => if a = 0xFFFC then 0xA9 else if a = 0xFFFD then 0x42 else 0) 0xFFFC = 0xA9) ∧
    ((fun a : Nat => if a = 0xFFFC then 0xA9 else if a = 0xFFFD then 0x42 else 0) 0xFFFD = 0x42) ∧
    ((clock (fun a : Nat => if a = 0xFFFC then 0xA9 else if a = 0xFFFD then 0x42 else 0)
        (clock (fun a : Nat => if a = 0xFFFC then 0xA9 else if a = 0xFFFD then 0x42 else 0)
          (construct false))).AC = 0x42 ∧
      zeroFlag (clock (fun a : Nat => if a = 0xFFFC then 0xA9 else if a = 0xFFFD then 0x42 else 0)
        (clock (fun a : Nat => if a = 0xFFFC then 0xA9 else if a = 0xFFFD then 0x42 else 0)
          (construct false))) = 0 ∧
      negativeFlag (clock (fun a : Nat => if a = 0xFFFC then 0xA9 else if a = 0xFFFD then 0x42 else 0)
        (clock (fun a : Nat => if a = 0xFFFC then 0xA9 else if a = 0xFFFD then 0x42 else 0)
          (construct false))) = 0 ∧
      (clock (fun a : Nat => if a = 0xFFFC then 0xA9 else if a = 0xFFFD then 0x42 else 0)
        (clock (fun a : Nat => if a = 0xFFFC then 0xA9 else if a = 0xFFFD then 0x42 else 0)
          (construct false))).sequences = []) :=
  ⟨by decide, by decide,
   c5_lda_immediate_end_to_end
     (fun a : Nat => if a = 0xFFFC then 0xA9 else if a = 0xFFFD then 0x42 else 0)
     (by decide) (by decide)⟩

/-- Claim C6 (with the `JAM` handler modelled from the spec, since its body
is a stub in the source): once the JAM handler has executed (from any state
with no other pending micro-steps), the resulting state is a fixed point of
`clock()` — the CPU never reaches the opcode-fetch branch again, its queue
stays non-empty, and the data bus shows the distinguishing value 0xFF —
until `reset()` is called, after which the next `clock()` performs a fresh
opcode fetch with address bus 0xFFFC. -/
theorem c6_jam_is_terminal_until_reset (mem : Nat → Nat) (s : CpuState)
    (h : s.sequences = []) :
    (∀ n, clockN mem n (runOperation mem Operation.JAM s) = runOperation mem Operation.JAM s) ∧
    (runOperation mem Operation.JAM s).IO_DB = 0xFF ∧
    (runOperation mem Operation.JAM s).sequences ≠ [] ∧
    getAB (clock mem (reset (runOperation mem Operation.JAM s))) = 0xFFFC := by
  have hJ : runOperation mem Operation.JAM s =
      { s with IO_DB := 255, sequences := [MicroStep.jam] } := by
    show JAM_spec s = _
    unfold JAM_spec
    rw [h]
    exact rfl
  have hfix : clock mem (runOperation mem Operation.JAM s) =
      runOperation mem Operation.JAM s := by
    rw [hJ]
    exact jam_fix mem _ rfl rfl
  refine ⟨?_, ?_, ?_, ?_⟩
  · intro n
    induction n with
    | zero => rfl
    | succ n ih =>
        show clockN mem n (clock mem _) = _
        rw [hfix]
        exact ih
  · rw [hJ]
  · rw [hJ]
    simp
  · exact getAB_clock_reset mem _

/-- Witness for C6 from the power-up state with an all-zero memory. -/
theorem c6_jam_is_terminal_until_reset_witness :
    ((construct false).sequences = []) ∧
    clockN (fun _ => 0) 3 (runOperation (fun _ => 0) Operation.JAM (construct false)) =
      runOperation (fun _ => 0) Operation.JAM (construct false) :=
  ⟨by decide,
   (c6_jam_is_terminal_until_reset (fun _ => 0) (construct false) (by decide)).1 3⟩

/-- Claim C7 (code bug, evaluated at the failing input): executing opcode
0xB5 (LDA zero-page,X — `LDA` modelled from the spec) with operand 0xFF and
X = 1.  Because micro-steps run in reverse order, the index-add step `T3`
runs first on the cleared latch: the address bus over the four pulses is
0xFFFC, 0x0001, 0x0000, 0xFFFD, and the operation executes with address bus
0x0001, loading mem[0x0001] = 0xBB into the accumulator rather than
mem[0x0000] = 0xAA as wrap-around addressing requires.  (The no-penalty half
of the claim does hold: the queue shrinks 3, 2, 1, 0.) -/
theorem c7_zpx_wrong_effective_address_trace :
    (let m : Nat → Nat := fun a =>
      if a = 0xFFFC then 0xB5 else if a = 0xFFFD then 0xFF
      else if a = 0 then 0xAA else if a = 1 then 0xBB else 0
     let s0 : CpuState := { construct false with XR := 1 }
     let s1 := clock m s0
     let s2 := clock m s1
     let s3 := clock m s2
     let s4 := clock m s3
     s1.sequences = [MicroStep.zpxT1, MicroStep.zpxT2, MicroStep.zpxT3 Operation.LDA] ∧
     getAB s1 = 0xFFFC ∧ getAB s2 = 0x0001 ∧ getAB s3 = 0x0000 ∧ getAB s4 = 0xFFFD ∧
     s2.sequences = [MicroStep.zpxT1, MicroStep.zpxT2] ∧
     s3.sequences = [MicroStep.zpxT1] ∧ s4.sequences = [] ∧
     s4.AC = 0xBB ∧ s2.AC = 0xBB) := by
  decide

set_option maxRecDepth 8192 in
set_option maxHeartbeats 4000000 in
/-- Claim C8: for every opcode value 0x00–0xFF, the `operations` table and
the `addressings` table each contain exactly one entry with that key, so the
`clock()` lookups never miss. -/
theorem c8_dispatch_tables_total :
    ∀ b : Fin 256,
      operations.countP (fun e => e.1 == b.1) = 1 ∧
      addressings.countP (fun e => e.1 == b.1) = 1 := by
  decide

/-- Claim C9: with an empty queue, `nextSequence()` (`pop() || ___`) returns
the `___` no-op micro-step and leaves the queue empty, and running that
no-op leaves the whole CPU state unchanged; the embedding is total, so no
failure is possible. -/
theorem c9_empty_queue_pop_is_noop (mem : Nat → Nat) (s : CpuState)
    (h : s.sequences = []) :
    nextSequence s.sequences = (MicroStep.noop, s.sequences) ∧
    runMicroStep mem MicroStep.noop s = s := by
  rw [h]
  exact ⟨rfl, rfl⟩

/-- Witness for C9 at the power-up state. -/
theorem c9_empty_queue_pop_is_noop_witness :
    ((construct false).sequences = []) ∧
    (nextSequence (construct false).sequences = (MicroStep.noop, (construct false).sequences) ∧
      runMicroStep (fun _ => 0) MicroStep.noop (construct false) = construct false) :=
  ⟨by decide, c9_empty_queue_pop_is_noop (fun _ => 0) (construct false) (by decide)⟩

/-- Claim C10: two CPUs constructed with different `debug` flags and driven
by the same memory collaborator through the same sequence of public calls
(`clock`, `reset`, `interruptRequest`, `nonMaskableInterrupt`,
`setOverflow`) end in states that agree on every register, flag, internal
latch, queue and bus pin — the debug flag only gates console output and
never influences CPU state evolution. -/
theorem c10_debug_flag_noninterference (mem : Nat → Nat) (cs : List PinCall)
    (d1 d2 : Bool) :
    stripDebug (runCalls mem cs (construct d1)) =
      stripDebug (runCalls mem cs (construct d2)) := by
  have e : ∀ d : Bool, stripDebug (runCalls mem cs (construct d)) =
      stripDebug (runCalls mem cs (construct false)) := by
    intro d
    have k : construct d = { construct false with debug := d } := rfl
    rw [k, runCalls_debug]
    rfl
  rw [e d1, e d2]
